import Mathlib

/-!
Shallow embedding of the Streamlit frontend `app.py` (Astrology Booklet User
Management).  The app is a thin HTTP adapter: it builds headers, dispatches a
request by HTTP verb, and renders the response.  We model the Python functions
`get_headers`, `show_response`, `make_request`, the payload construction of the
Create/Update User action, and the request of each UI action, as pure Lean
functions.  Side effects (`st.error`, `st.success`, `st.json`, ...) become an
explicit list of UI events; the HTTP library becomes an oracle function from
requests to transport results.
-/

namespace AstroApp

/-- Parsed JSON values, as returned by `resp.json()`.  JSON numbers are
modelled as integers (no claim touches fractional numbers). -/
inductive JVal where
  | null
  | bool (b : Bool)
  | num (n : Int)
  | str (s : String)
  | arr (xs : List JVal)
  | obj (fields : List (String × JVal))
deriving Repr

/-- Python truthiness of a parsed JSON value (`if data:`): `None`, `False`,
`0`, `""`, `[]` and `\x7b\x7d` are falsy, everything else truthy. -/
def pyTruthy : JVal → Bool
  | .null => false
  | .bool b => b
  | .num n => n != 0
  | .str s => s != ""
  | .arr xs => !xs.isEmpty
  | .obj fs => !fs.isEmpty

/-- Python `len` on a parsed JSON value: defined for strings, lists and
dicts; `none` models the `TypeError` raised on other values. -/
def pyLen : JVal → Option Nat
  | .str s => some s.length
  | .arr xs => some xs.length
  | .obj fs => some fs.length
  | _ => none

mutual
/-- Python `repr` of a parsed JSON value (used by `str` inside containers).
String escaping inside `repr` is not modelled (no claim depends on it). -/
def pyRepr : JVal → String
  | .null => "None"
  | .bool true => "True"
  | .bool false => "False"
  | .num n => toString n
  | .str s => "\x27" ++ s ++ "\x27"
  | .arr xs => "[" ++ String.intercalate ", " (pyReprList xs) ++ "]"
  | .obj fs => "\x7b" ++ String.intercalate ", " (pyReprFields fs) ++ "\x7d"

def pyReprList : List JVal → List String
  | [] => []
  | v :: vs => pyRepr v :: pyReprList vs

def pyReprFields : List (String × JVal) → List String
  | [] => []
  | (k, v) :: fs => ("\x27" ++ k ++ "\x27: " ++ pyRepr v) :: pyReprFields fs
end

/-- Python `str` of a parsed JSON value, as used by f-string interpolation:
a string renders as itself, everything else as its `repr`. -/
def pyStr : JVal → String
  | .str s => s
  | v => pyRepr v

/-- Python `dict.get k` on a parsed JSON object, returning `none` when the
key is absent (first binding wins, as dict keys are unique). -/
def dictGet (fs : List (String × JVal)) (k : String) : Option JVal :=
  match fs with
  | [] => none
  | (k2, v) :: rest => if k2 = k then some v else dictGet rest k

/-- Python `dict.get k default`. -/
def dictGetD (fs : List (String × JVal)) (k : String) (d : JVal) : JVal :=
  (dictGet fs k).getD d

/-- One UI side effect of the app (`st.error`, `st.success`, `st.json`,
`st.text_area`, `st.info`, `st.write`, `st.markdown`); `pyError` marks a spot
where the Python code would raise an uncaught exception (e.g. `len` of an
int). Sidebar and main-area widgets are not distinguished. -/
inductive UIEvent where
  | success (msg : String)
  | errorOut (msg : String)
  | jsonOut (v : JVal)
  | textArea (label text : String)
  | info (msg : String)
  | write (msg : String)
  | markdown (msg : String)
  | pyError
deriving Repr

/-- An HTTP response as the app sees it: status code, the result of
`resp.json()` (`none` when parsing raises), and `resp.text`. -/
structure Resp where
  status_code : Nat
  jsonResult : Option JVal
  text : String
deriving Repr

/-- `requests.Response.__bool__`, i.e. `Response.ok`: true unless
`raise_for_status` would raise, which it does exactly for 400-599. -/
def Resp.ok (r : Resp) : Bool :=
  !(400 ≤ r.status_code && r.status_code < 600)

/-- Truthiness of the `Optional[Response]` returned by `make_request`
(`if resp:`): `None` is falsy, a response is truthy iff `.ok`. -/
def respTruthy : Option Resp → Bool
  | none => false
  | some r => r.ok

/-- `get_headers(require_auth)` from `app.py`: always `Accept` and
`Content-Type`; adds `Authorization: Bearer <token>` when `require_auth` and
the configured token is truthy (non-empty).  The session token `token_input`
is passed explicitly. -/
def get_headers (token_input : String) (require_auth : Bool := false) :
    List (String × String) :=
  let headers := [("Accept", "application/json"),
                  ("Content-Type", "application/json")]
  if require_auth && token_input != "" then
    headers ++ [("Authorization", "Bearer " ++ token_input)]
  else
    headers

/-- `show_response(resp, success_message)` from `app.py`, returning the list
of UI events and the Python return value.  For status < 400 it shows the
optional success banner then the parsed JSON (returning it), falling back to
a raw-text area; for status ≥ 400 it shows `Error <code>: <detail>` when the
body parses as a JSON object (the `.get` call raises `AttributeError` on any
other parsed value, caught by the same `except`), else
`Error <code>: <text>`. -/
def show_response (resp : Resp) (success_message : Option String := none) :
    List UIEvent × Option JVal :=
  if resp.status_code < 400 then
    let banner := match success_message with
      | some m => [UIEvent.success m]
      | none => []
    match resp.jsonResult with
    | some data => (banner ++ [UIEvent.jsonOut data], some data)
    | none => (banner ++ [UIEvent.textArea "Raw response (text)" resp.text], none)
  else
    match resp.jsonResult with
    | some (.obj fs) =>
        ([UIEvent.errorOut ("Error " ++ toString resp.status_code ++ ": " ++
          pyStr (dictGetD fs "detail" (.str "Unknown error")))], none)
    | _ =>
        ([UIEvent.errorOut ("Error " ++ toString resp.status_code ++ ": " ++
          resp.text)], none)

/-- Python `str.upper` applied codepoint-wise (basic-latin case mapping, which
is exact for the ASCII method names the app compares against). -/
def pyUpper (s : String) : String := ⟨s.data.map Char.toUpper⟩

/-- The four HTTP verbs `make_request` dispatches on. -/
inductive Verb where
  | get
  | post
  | put
  | delete
deriving DecidableEq, Repr

/-- The keyword arguments the app passes to `requests.<verb>`: `headers=`,
`json=` (the payload dict, when present) and `timeout=` (seconds). -/
structure Kwargs where
  headers : List (String × String) := []
  json : Option (List (String × JVal)) := none
  timeout : Option Nat := none
deriving Repr

/-- What one call into the HTTP library does: return a response, or raise
one of the three exception classes `make_request` catches
(`requests.exceptions.ConnectionError`, `requests.exceptions.Timeout`, any
other `requests.RequestException` carrying message `msg`). -/
inductive TransportResult where
  | ok (resp : Resp)
  | connectionError
  | timeoutError
  | requestError (msg : String)
deriving Repr

/-- The HTTP library as an oracle from (verb, url, kwargs) to what the
attempt does. -/
def Net := Verb → String → Kwargs → TransportResult

/-- A record of one network call actually issued. -/
structure Call where
  verb : Verb
  url : String
  kwargs : Kwargs
deriving Repr

/-- Result of `make_request`: its UI events, its Python return value
(`Optional[Response]`), and the network calls it issued. -/
structure MRResult where
  events : List UIEvent
  resp : Option Resp
  calls : List Call
deriving Repr

/-- Message of the unsupported-method branch. -/
def unsupportedMethodMsg (method : String) : String :=
  "Unsupported method: " ++ method

/-- Message of the `ConnectionError` handler (mentions `BASE_URL`). -/
def connectionFailedMsg (base_url : String) : String :=
  "❌ Connection failed. Is the backend running at " ++ base_url ++ "?"

/-- Message of the `Timeout` handler. -/
def timedOutMsg : String := "⏱️ Request timed out"

/-- Message of the generic `RequestException` handler. -/
def requestFailedMsg (e : String) : String := "❌ Request failed: " ++ e

/-- The verb selected by the `if/elif` chain on `method.upper()` in
`make_request`; `none` is the unsupported-method branch. -/
def parseVerb (method : String) : Option Verb :=
  if pyUpper method = "GET" then some .get
  else if pyUpper method = "POST" then some .post
  else if pyUpper method = "PUT" then some .put
  else if pyUpper method = "DELETE" then some .delete
  else none

/-- `make_request(method, url, **kwargs)` from `app.py`.  `BASE_URL` (read by
the connection-error message) is passed explicitly; `net` is the HTTP
library.  The function is total: every transport exception is caught and
becomes an `st.error` event plus a `None` return value, so no exception
reaches the caller. -/
def make_request (net : Net) (base_url method url : String) (kwargs : Kwargs) :
    MRResult :=
  match parseVerb method with
  | none => ⟨[.errorOut (unsupportedMethodMsg method)], none, []⟩
  | some v =>
    match net v url kwargs with
    | .ok resp => ⟨[], some resp, [⟨v, url, kwargs⟩]⟩
    | .connectionError =>
        ⟨[.errorOut (connectionFailedMsg base_url)], none, [⟨v, url, kwargs⟩]⟩
    | .timeoutError => ⟨[.errorOut timedOutMsg], none, [⟨v, url, kwargs⟩]⟩
    | .requestError e =>
        ⟨[.errorOut (requestFailedMsg e)], none, [⟨v, url, kwargs⟩]⟩

/-- A `datetime.date` as produced by `st.date_input`. -/
structure PyDate where
  year : Nat
  month : Nat
  day : Nat
deriving Repr

/-- A `datetime.time` as produced by `st.time_input`. -/
structure PyTime where
  hour : Nat
  minute : Nat
deriving Repr

/-- Two-digit zero padding, as `%m`, `%d`, `%H`, `%M` produce. -/
def pad2 (n : Nat) : String := if n < 10 then "0" ++ toString n else toString n

/-- `date.strftime("%Y-%m-%d")` (glibc prints `%Y` unpadded; the UI only
produces four-digit years, for which this is `YYYY-MM-DD`). -/
def PyDate.ymd (d : PyDate) : String :=
  toString d.year ++ "-" ++ pad2 d.month ++ "-" ++ pad2 d.day

/-- `time.strftime("%H:%M")`, i.e. `HH:MM`. -/
def PyTime.hm (t : PyTime) : String := pad2 t.hour ++ ":" ++ pad2 t.minute

/-- The Create/Update User form state: text inputs default to `""`, the date
and time pickers to `None`. -/
structure UserForm where
  first_name : String := ""
  last_name : String := ""
  birthdate : Option PyDate := none
  birthtime : Option PyTime := none
  city : String := ""
  country : String := ""
  login : String := ""
  timezone : String := ""
deriving Repr

/-- The payload dict built by the Save User branch: `first_name` first, then
each optional field appended only when truthy (non-empty / not `None`). -/
def save_user_payload (f : UserForm) : List (String × JVal) :=
  [("first_name", JVal.str f.first_name)]
  ++ (if f.last_name != "" then [("last_name", JVal.str f.last_name)] else [])
  ++ (match f.birthdate with
      | some d => [("birthdate", JVal.str d.ymd)]
      | none => [])
  ++ (match f.birthtime with
      | some t => [("birthtime", JVal.str t.hm)]
      | none => [])
  ++ (if f.city != "" then [("city", JVal.str f.city)] else [])
  ++ (if f.country != "" then [("country", JVal.str f.country)] else [])
  ++ (if f.login != "" then [("login", JVal.str f.login)] else [])
  ++ (if f.timezone != "" then [("timezone", JVal.str f.timezone)] else [])

/-- Result of one UI action: its UI events and the network calls issued. -/
structure ActionResult where
  events : List UIEvent
  calls : List Call
deriving Repr

/-- The View All Users action (button "Fetch All Users"): GET `/users`,
timeout 10; on a truthy response, render it and report the user count
(`len(data)` raises on a sizeless value, and runs only when `data` is
truthy). -/
def viewAllUsersAction (net : Net) (base_url token_input : String) :
    ActionResult :=
  let mr := make_request net base_url "GET" (base_url ++ "/users")
    ⟨get_headers token_input, none, some 10⟩
  let follow := match mr.resp with
    | some r =>
      if r.ok then
        let rendered := show_response r
        rendered.1 ++ (match rendered.2 with
          | some d =>
            if pyTruthy d then
              match pyLen d with
              | some n => [UIEvent.info ("Found " ++ toString n ++ " user(s)")]
              | none => [UIEvent.pyError]
            else []
          | none => [])
      else []
    | none => []
  ⟨mr.events ++ follow, mr.calls⟩

/-- The Get User by ID action: GET `/users/{id}`, timeout 10. -/
def getUserByIdAction (net : Net) (base_url token_input : String)
    (user_id : Nat) : ActionResult :=
  let mr := make_request net base_url "GET"
    (base_url ++ "/users/" ++ toString user_id)
    ⟨get_headers token_input, none, some 10⟩
  let follow := match mr.resp with
    | some r => if r.ok then (show_response r).1 else []
    | none => []
  ⟨mr.events ++ follow, mr.calls⟩

/-- The Save User branch of the Create/Update User action: an empty
`first_name` is rejected client-side with no network activity; otherwise
POST `/users` with the payload dict, authenticated headers and timeout 10. -/
def saveUserAction (net : Net) (base_url token_input : String)
    (f : UserForm) : ActionResult :=
  if f.first_name = "" then
    ⟨[.errorOut "First name is required!"], []⟩
  else
    let mr := make_request net base_url "POST" (base_url ++ "/users")
      ⟨get_headers token_input true, some (save_user_payload f), some 10⟩
    let follow := match mr.resp with
      | some r =>
        if r.ok then (show_response r (some "✅ User saved successfully!")).1
        else []
      | none => []
    ⟨mr.events ++ follow, mr.calls⟩

/-- The Get Astrology Placements action: GET `/users/{id}/placements`,
timeout 30. -/
def getPlacementsAction (net : Net) (base_url token_input : String)
    (user_id : Nat) : ActionResult :=
  let mr := make_request net base_url "GET"
    (base_url ++ "/users/" ++ toString user_id ++ "/placements")
    ⟨get_headers token_input, none, some 30⟩
  let follow := match mr.resp with
    | some r => if r.ok then (show_response r).1 else []
    | none => []
  ⟨mr.events ++ follow, mr.calls⟩

/-- One `st.write` line of the Big Three summary.  Python indexes
`data[label]` and calls `.get` on it, which raises (uncaught) when the
placement value is truthy but not a dict. -/
def bigThreeLine (emoji label : String) (v : JVal) : UIEvent :=
  match v with
  | .obj fs =>
      .write (emoji ++ " **" ++ label ++ "**: " ++
        pyStr (dictGetD fs "sign" (.str "N/A")) ++ " " ++
        pyStr (dictGetD fs "degree" (.str "")) ++ "°")
  | _ => .pyError

/-- The summary block of the Big Three action: a markdown header, then one
line per truthy `Sun` / `Moon` / `Asc` entry (`data.get` raises on a
non-dict `data`). -/
def bigThreeSummary (data : JVal) : List UIEvent :=
  UIEvent.markdown "### Astrology Summary" ::
  (match data with
   | .obj fs =>
     (match dictGet fs "Sun" with
      | some v => if pyTruthy v then [bigThreeLine "☀️" "Sun" v] else []
      | none => [])
     ++ (match dictGet fs "Moon" with
         | some v => if pyTruthy v then [bigThreeLine "🌙" "Moon" v] else []
         | none => [])
     ++ (match dictGet fs "Asc" with
         | some v => if pyTruthy v then [bigThreeLine "⬆️" "Ascendant" v] else []
         | none => [])
   | _ => [UIEvent.pyError])

/-- The Get Big Three action: GET `/users/{id}/big-three`, timeout 30; on a
truthy rendered result, also write the summary block. -/
def getBigThreeAction (net : Net) (base_url token_input : String)
    (user_id : Nat) : ActionResult :=
  let mr := make_request net base_url "GET"
    (base_url ++ "/users/" ++ toString user_id ++ "/big-three")
    ⟨get_headers token_input, none, some 30⟩
  let follow := match mr.resp with
    | some r =>
      if r.ok then
        let rendered := show_response r
        rendered.1 ++ (match rendered.2 with
          | some d => if pyTruthy d then bigThreeSummary d else []
          | none => [])
      else []
    | none => []
  ⟨mr.events ++ follow, mr.calls⟩

/-- The Generate Booklet PDF action: GET `/users/{id}/booklet`, timeout 120;
success banner exactly on a truthy response with status 200, generic
rendering on any other truthy response. -/
def generateBookletAction (net : Net) (base_url token_input : String)
    (user_id : Nat) : ActionResult :=
  let mr := make_request net base_url "GET"
    (base_url ++ "/users/" ++ toString user_id ++ "/booklet")
    ⟨get_headers token_input, none, some 120⟩
  let follow := match mr.resp with
    | some r =>
      if r.ok && r.status_code == 200 then
        [UIEvent.success "✅ Booklet generated successfully!",
         UIEvent.info "The PDF has been saved to your Downloads folder."]
      else if r.ok then (show_response r).1
      else []
    | none => []
  ⟨mr.events ++ follow, mr.calls⟩

/-- The Generate Calendar PDF action: GET `/users/{id}/calendar?year={year}`,
timeout 120; success banner exactly on a truthy response with status 200,
generic rendering on any other truthy response. -/
def generateCalendarAction (net : Net) (base_url token_input : String)
    (user_id year : Nat) : ActionResult :=
  let mr := make_request net base_url "GET"
    (base_url ++ "/users/" ++ toString user_id ++ "/calendar?year=" ++
      toString year)
    ⟨get_headers token_input, none, some 120⟩
  let follow := match mr.resp with
    | some r =>
      if r.ok && r.status_code == 200 then
        [UIEvent.success "✅ Calendar generated successfully!",
         UIEvent.info "The PDF has been saved to your Downloads folder."]
      else if r.ok then (show_response r).1
      else []
    | none => []
  ⟨mr.events ++ follow, mr.calls⟩

/-- The sidebar health-check button: GET `/health`, timeout 5; on a truthy
response, a healthy banner (plus the JSON body when it parses) for status
200 and a failure message otherwise. -/
def healthCheckAction (net : Net) (base_url token_input : String) :
    ActionResult :=
  let mr := make_request net base_url "GET" (base_url ++ "/health")
    ⟨get_headers token_input, none, some 5⟩
  let follow := match mr.resp with
    | some r =>
      if r.ok then
        if r.status_code == 200 then
          UIEvent.success "✅ Backend is healthy!" ::
          (match r.jsonResult with
           | some j => [UIEvent.jsonOut j]
           | none => [])
        else [UIEvent.errorOut "❌ Backend health check failed"]
      else []
    | none => []
  ⟨mr.events ++ follow, mr.calls⟩

/-- Substring test: `needle` occurs contiguously in `hay`. -/
def hasSubstr (hay needle : String) : Bool :=
  hay.data.tails.any fun t => needle.data.isPrefixOf t

/-- C5: `get_headers` always includes the JSON Accept and Content-Type
headers; it includes an Authorization header exactly when `require_auth` is
true and the configured token is non-empty, and any Authorization value it
sends is `Bearer <token>`. -/
theorem spec_C5 (token_input : String) (require_auth : Bool) :
    ("Accept", "application/json") ∈ get_headers token_input require_auth
    ∧ ("Content-Type", "application/json") ∈ get_headers token_input require_auth
    ∧ ((∃ v, ("Authorization", v) ∈ get_headers token_input require_auth)
        ↔ require_auth = true ∧ token_input ≠ "")
    ∧ (∀ v, ("Authorization", v) ∈ get_headers token_input require_auth →
        v = "Bearer " ++ token_input) := by
  unfold get_headers
  rcases require_auth with _ | _ <;> by_cases ht : token_input = "" <;>
    simp [ht]

/-- C4: for a response with status below 400, `show_response` returns the
parsed JSON structure unchanged when the body parses, and falls back to a
raw-text area (returning no data) when it does not. -/
theorem spec_C4 (r : Resp) (sm : Option String) (h : r.status_code < 400) :
    (∀ j, r.jsonResult = some j →
      show_response r sm
        = ((match sm with | some m => [UIEvent.success m] | none => [])
            ++ [UIEvent.jsonOut j], some j))
    ∧ (r.jsonResult = none →
      show_response r sm
        = ((match sm with | some m => [UIEvent.success m] | none => [])
            ++ [UIEvent.textArea "Raw response (text)" r.text], none)) := by
  constructor
  · intro j hj
    unfold show_response
    rw [if_pos h, hj]
    rfl
  · intro hj
    unfold show_response
    rw [if_pos h, hj]
    rfl

/-- C4 witness: a 200 response with body `\x7b"id":1,"first_name":"Ana"\x7d`
renders the parsed object and returns it unchanged. -/
theorem spec_C4_witness :
    (200 : Nat) < 400
    ∧ show_response
        ⟨200, some (.obj [("id", .num 1), ("first_name", .str "Ana")]), "x"⟩
        none
      = ([UIEvent.jsonOut (.obj [("id", .num 1), ("first_name", .str "Ana")])],
         some (.obj [("id", .num 1), ("first_name", .str "Ana")])) :=
  ⟨by norm_num,
   (spec_C4 ⟨200, some (.obj [("id", .num 1), ("first_name", .str "Ana")]), "x"⟩
     none (by norm_num)).1 _ rfl⟩

/-- C3 counterexample: a 400 response whose body parses as JSON — a JSON
array — is NOT displayed with the `detail` default `Unknown error`; the
`.get` call raises `AttributeError` on a non-dict, so the raw text is shown
instead.  The arm of the claim for parseable-JSON bodies fails here. -/
theorem spec_C3_counterexample :
    show_response ⟨400, some (.arr []), "[]"⟩ none
      = ([UIEvent.errorOut "Error 400: []"], none)
    ∧ hasSubstr "Error 400: []" "Unknown error" = false := ⟨rfl, rfl⟩

/-- C3 (amended): for status ≥ 400, when the body parses as a JSON OBJECT the
display is `Error <code>: <detail>` with `Unknown error` as the default for a
missing `detail` key; when the body parses as any other JSON value, or does
not parse at all, the display is `Error <code>: <raw text>`; in every case no
structured data is returned. -/
theorem spec_C3_amended (r : Resp) (sm : Option String)
    (h : 400 ≤ r.status_code) :
    (∀ fs, r.jsonResult = some (.obj fs) →
      show_response r sm
        = ([UIEvent.errorOut ("Error " ++ toString r.status_code ++ ": " ++
            pyStr (dictGetD fs "detail" (.str "Unknown error")))], none))
    ∧ (∀ fs, r.jsonResult = some (.obj fs) → dictGet fs "detail" = none →
      show_response r sm
        = ([UIEvent.errorOut ("Error " ++ toString r.status_code ++
            ": Unknown error")], none))
    ∧ ((∀ fs, r.jsonResult ≠ some (.obj fs)) →
      show_response r sm
        = ([UIEvent.errorOut ("Error " ++ toString r.status_code ++ ": " ++
            r.text)], none)) := by
  have hlt : ¬ r.status_code < 400 := by omega
  refine ⟨?_, ?_, ?_⟩
  · intro fs hfs
    unfold show_response
    rw [if_neg hlt, hfs]
  · intro fs hfs hd
    unfold show_response
    rw [if_neg hlt, hfs]
    simp only [dictGetD, hd, Option.getD]
    rw [String.append_assoc]
    rfl
  · intro hne
    unfold show_response
    rw [if_neg hlt]
    rcases hj : r.jsonResult with _ | v
    · rfl
    · rcases v with _ | _ | _ | _ | _ | fs
      · rfl
      · rfl
      · rfl
      · rfl
      · rfl
      · exact absurd hj (hne fs)

/-- C3 amended-claim witness: a 404 with body
`\x7b"detail":"User not found"\x7d` displays `Error 404: User not found`,
and a 500 with unparsable body `internal error` displays
`Error 500: internal error`. -/
theorem spec_C3_witness :
    (400 : Nat) ≤ 404
    ∧ show_response ⟨404, some (.obj [("detail", .str "User not found")]), "x"⟩
        none
      = ([UIEvent.errorOut "Error 404: User not found"], none)
    ∧ show_response ⟨500, none, "internal error"⟩ none
      = ([UIEvent.errorOut "Error 500: internal error"], none) :=
  ⟨by norm_num,
   (spec_C3_amended
     ⟨404, some (.obj [("detail", .str "User not found")]), "x"⟩ none
     (by norm_num)).1 _ rfl,
   (spec_C3_amended ⟨500, none, "internal error"⟩ none (by norm_num)).2.2
     (by intro fs h; simp at h)⟩

/-- C7: an empty `first_name` is rejected client-side: whatever the HTTP
library would do, the Save User action shows only the validation error,
returns nothing, and issues zero network calls. -/
theorem spec_C7 (net : Net) (base_url token_input : String) (f : UserForm)
    (h : f.first_name = "") :
    saveUserAction net base_url token_input f
      = ⟨[UIEvent.errorOut "First name is required!"], []⟩ := by
  unfold saveUserAction
  rw [if_pos h]

/-- C7 witness: the empty form (all fields empty) is blocked with the
validation error and no network call, for a network that would answer 200. -/
theorem spec_C7_witness :
    saveUserAction (fun _ _ _ => .ok ⟨200, some .null, ""⟩) "b" "t" {}
      = ⟨[UIEvent.errorOut "First name is required!"], []⟩ :=
  spec_C7 (fun _ _ _ => .ok ⟨200, some .null, ""⟩) "b" "t" {} rfl

/-- C2: a method string whose uppercasing is none of GET, POST, PUT, DELETE
short-circuits `make_request` to the configuration-error outcome: the
unsupported-method message, a `None` return, and zero network calls. -/
theorem spec_C2 (net : Net) (base_url method url : String) (kwargs : Kwargs)
    (h : pyUpper method ∉ (["GET", "POST", "PUT", "DELETE"] : List String)) :
    make_request net base_url method url kwargs
      = ⟨[UIEvent.errorOut (unsupportedMethodMsg method)], none, []⟩ := by
  simp only [List.mem_cons, List.not_mem_nil, or_false, not_or] at h
  obtain ⟨h1, h2, h3, h4⟩ := h
  unfold make_request parseVerb
  rw [if_neg h1, if_neg h2, if_neg h3, if_neg h4]

/-- C2 witness: method `PATCH` yields the configuration-error outcome with
zero network calls, for a network that would answer 200. -/
theorem spec_C2_witness :
    make_request (fun _ _ _ => .ok ⟨200, some .null, ""⟩) "b" "PATCH" "u" {}
      = ⟨[UIEvent.errorOut (unsupportedMethodMsg "PATCH")], none, []⟩ :=
  spec_C2 (fun _ _ _ => .ok ⟨200, some .null, ""⟩) "b" "PATCH" "u" {}
    (by decide)

/-- The connection-failure message has `C` at index 2, whatever the base
URL. -/
theorem connectionFailedMsg_third (b : String) :
    (connectionFailedMsg b).data.getD 2 ' ' = 'C' := rfl

/-- The generic request-failure message has `R` at index 2, whatever the
underlying exception text. -/
theorem requestFailedMsg_third (e : String) :
    (requestFailedMsg e).data.getD 2 ' ' = 'R' := rfl

/-- The timeout message has a space at index 2 (the clock emoji occupies two
codepoints). -/
theorem timedOutMsg_third : timedOutMsg.data.getD 2 ' ' = ' ' := rfl

/-- The three transport-failure messages are pairwise distinct, for every
base URL and every underlying exception text. -/
theorem transportMsgs_pairwise_ne (b e : String) :
    connectionFailedMsg b ≠ timedOutMsg
    ∧ connectionFailedMsg b ≠ requestFailedMsg e
    ∧ timedOutMsg ≠ requestFailedMsg e := by
  refine ⟨fun h => ?_, fun h => ?_, fun h => ?_⟩
  · have h2 : (connectionFailedMsg b).data.getD 2 ' '
        = timedOutMsg.data.getD 2 ' ' := by rw [h]
    rw [connectionFailedMsg_third b, timedOutMsg_third] at h2
    exact absurd h2 (by decide)
  · have h2 : (connectionFailedMsg b).data.getD 2 ' '
        = (requestFailedMsg e).data.getD 2 ' ' := by rw [h]
    rw [connectionFailedMsg_third b, requestFailedMsg_third e] at h2
    exact absurd h2 (by decide)
  · have h2 : timedOutMsg.data.getD 2 ' '
        = (requestFailedMsg e).data.getD 2 ' ' := by rw [h]
    rw [timedOutMsg_third, requestFailedMsg_third e] at h2
    exact absurd h2 (by decide)

/-- C1: for any supported method, each of the three transport exception
classes is caught and turned into exactly one error-message event with a
`None` return value — so no exception reaches the caller — and the three
messages are pairwise distinct; in particular a timeout is reported
distinctly from a connection failure and from a generic request failure. -/
theorem spec_C1 (base_url method url : String) (kwargs : Kwargs) (v : Verb)
    (hv : parseVerb method = some v) (e : String) :
    make_request (fun _ _ _ => .connectionError) base_url method url kwargs
      = ⟨[UIEvent.errorOut (connectionFailedMsg base_url)], none,
         [⟨v, url, kwargs⟩]⟩
    ∧ make_request (fun _ _ _ => .timeoutError) base_url method url kwargs
      = ⟨[UIEvent.errorOut timedOutMsg], none, [⟨v, url, kwargs⟩]⟩
    ∧ make_request (fun _ _ _ => .requestError e) base_url method url kwargs
      = ⟨[UIEvent.errorOut (requestFailedMsg e)], none, [⟨v, url, kwargs⟩]⟩
    ∧ connectionFailedMsg base_url ≠ timedOutMsg
    ∧ connectionFailedMsg base_url ≠ requestFailedMsg e
    ∧ timedOutMsg ≠ requestFailedMsg e := by
  obtain ⟨n1, n2, n3⟩ := transportMsgs_pairwise_ne base_url e
  refine ⟨?_, ?_, ?_, n1, n2, n3⟩ <;>
    · unfold make_request
      rw [hv]

/-- C1 witness: a connection-refused, a timeout and a generic failure on
`GET http://localhost:8010/users` each yield their own error event with a
`None` return, and the three messages differ. -/
theorem spec_C1_witness :
    make_request (fun _ _ _ => .connectionError) "http://localhost:8010"
        "GET" "http://localhost:8010/users" {}
      = ⟨[UIEvent.errorOut (connectionFailedMsg "http://localhost:8010")],
         none, [⟨.get, "http://localhost:8010/users", {}⟩]⟩
    ∧ make_request (fun _ _ _ => .timeoutError) "http://localhost:8010"
        "GET" "http://localhost:8010/users" {}
      = ⟨[UIEvent.errorOut timedOutMsg], none,
         [⟨.get, "http://localhost:8010/users", {}⟩]⟩
    ∧ make_request (fun _ _ _ => .requestError "boom") "http://localhost:8010"
        "GET" "http://localhost:8010/users" {}
      = ⟨[UIEvent.errorOut (requestFailedMsg "boom")], none,
         [⟨.get, "http://localhost:8010/users", {}⟩]⟩
    ∧ connectionFailedMsg "http://localhost:8010" ≠ timedOutMsg
    ∧ connectionFailedMsg "http://localhost:8010" ≠ requestFailedMsg "boom"
    ∧ timedOutMsg ≠ requestFailedMsg "boom" :=
  spec_C1 "http://localhost:8010" "GET" "http://localhost:8010/users" {}
    .get rfl "boom"

/-- Basic-latin uppercasing leaves an already-uppercased codepoint fixed. -/
theorem toUpper_fixed (n : Nat) (h1 : 97 ≤ n) (h2 : n ≤ 122) :
    (Char.ofNat (n - 32)).toUpper = Char.ofNat (n - 32) := by
  interval_cases n <;> decide

/-- `Char.toUpper` is idempotent. -/
theorem char_toUpper_idem (c : Char) : c.toUpper.toUpper = c.toUpper := by
  by_cases h : c.toNat ≥ 97 ∧ c.toNat ≤ 122
  · have h3 : c.toUpper = Char.ofNat (c.toNat - 32) := if_pos h
    rw [h3]
    exact toUpper_fixed c.toNat h.1 h.2
  · have h3 : c.toUpper = c := if_neg h
    rw [h3, h3]

/-- `pyUpper` is idempotent: uppercasing an uppercased method string changes
nothing. -/
theorem pyUpper_idem (s : String) : pyUpper (pyUpper s) = pyUpper s := by
  unfold pyUpper
  congr 1
  show (s.data.map Char.toUpper).map Char.toUpper = s.data.map Char.toUpper
  rw [List.map_map,
    show Char.toUpper ∘ Char.toUpper = Char.toUpper from funext char_toUpper_idem]

/-- The verb chain sees `method.upper()` only, so it selects the same branch
for `method` and for its uppercasing. -/
theorem parseVerb_pyUpper (method : String) :
    parseVerb (pyUpper method) = parseVerb method := by
  unfold parseVerb
  rw [pyUpper_idem]

/-- C10 counterexample: the claim fails as stated, because the
configuration-error message echoes the method string as typed: dispatching
`patch` and `PATCH` yields different events, hence different outcomes. -/
theorem spec_C10_counterexample :
    (make_request (fun _ _ _ => .connectionError) "b" "patch" "u" {}).events
      = [UIEvent.errorOut "Unsupported method: patch"]
    ∧ (make_request (fun _ _ _ => .connectionError) "b" "PATCH" "u" {}).events
      = [UIEvent.errorOut "Unsupported method: PATCH"]
    ∧ make_request (fun _ _ _ => .connectionError) "b" "patch" "u" {}
        ≠ make_request (fun _ _ _ => .connectionError) "b" "PATCH" "u" {} := by
  refine ⟨rfl, rfl, fun h => ?_⟩
  have h2 := congrArg
    (fun r => match r.events.headD UIEvent.pyError with
              | UIEvent.errorOut m => m
              | _ => "") h
  exact absurd h2 (by decide)

/-- C10 (amended): method matching is case-insensitive — `method` and
`upper(method)` select the same branch, issue the same network calls and
return the same value, and for every supported method the whole outcome is
identical; only the configuration-error message of an unsupported method
echoes the string as typed. -/
theorem spec_C10_amended (net : Net) (base_url method url : String)
    (kwargs : Kwargs) :
    parseVerb (pyUpper method) = parseVerb method
    ∧ (make_request net base_url method url kwargs).resp
        = (make_request net base_url (pyUpper method) url kwargs).resp
    ∧ (make_request net base_url method url kwargs).calls
        = (make_request net base_url (pyUpper method) url kwargs).calls
    ∧ (∀ v, parseVerb method = some v →
        make_request net base_url method url kwargs
          = make_request net base_url (pyUpper method) url kwargs) := by
  have hp := parseVerb_pyUpper method
  refine ⟨hp, ?_, ?_, fun v hv => ?_⟩
  · unfold make_request
    rw [hp]
    rcases parseVerb method with _ | v
    · rfl
    · rcases net v url kwargs <;> rfl
  · unfold make_request
    rw [hp]
    rcases parseVerb method with _ | v
    · rfl
    · rcases net v url kwargs <;> rfl
  · unfold make_request
    rw [hp, hv]

/-- C10 amended-claim witness: `get` and `GET` produce the identical
outcome on a 200-answering network. -/
theorem spec_C10_witness :
    make_request (fun _ _ _ => .ok ⟨200, some .null, ""⟩) "b" "get" "u" {}
      = make_request (fun _ _ _ => .ok ⟨200, some .null, ""⟩) "b"
          (pyUpper "get") "u" {} :=
  (spec_C10_amended (fun _ _ _ => .ok ⟨200, some .null, ""⟩) "b" "get" "u"
    {}).2.2.2 .get rfl

/-- C6: for a submission with non-empty `first_name`, the payload carries
`first_name`, carries each optional key exactly when the operator filled the
field, formats `birthdate` as `<year>-MM-DD` and `birthtime` as `HH:MM`,
and the only-`Mara` submission produces exactly
`\x7b"first_name":"Mara"\x7d`. -/
theorem spec_C6 (f : UserForm) (h : f.first_name ≠ "") :
    ("first_name", JVal.str f.first_name) ∈ save_user_payload f
    ∧ ((∃ v, ("last_name", v) ∈ save_user_payload f) ↔ f.last_name ≠ "")
    ∧ ((∃ v, ("birthdate", v) ∈ save_user_payload f) ↔ f.birthdate ≠ none)
    ∧ (∀ d, f.birthdate = some d →
        ("birthdate", JVal.str (toString d.year ++ "-" ++ pad2 d.month ++ "-"
          ++ pad2 d.day)) ∈ save_user_payload f)
    ∧ ((∃ v, ("birthtime", v) ∈ save_user_payload f) ↔ f.birthtime ≠ none)
    ∧ (∀ t, f.birthtime = some t →
        ("birthtime", JVal.str (pad2 t.hour ++ ":" ++ pad2 t.minute))
          ∈ save_user_payload f)
    ∧ ((∃ v, ("city", v) ∈ save_user_payload f) ↔ f.city ≠ "")
    ∧ ((∃ v, ("country", v) ∈ save_user_payload f) ↔ f.country ≠ "")
    ∧ ((∃ v, ("login", v) ∈ save_user_payload f) ↔ f.login ≠ "")
    ∧ ((∃ v, ("timezone", v) ∈ save_user_payload f) ↔ f.timezone ≠ "")
    ∧ save_user_payload { first_name := "Mara" }
        = [("first_name", JVal.str "Mara")] := by
  obtain ⟨fn, ln, bd, bt, ci, co, lo, tz⟩ := f
  unfold save_user_payload
  rcases bd with _ | d <;> rcases bt with _ | t <;>
    simp [PyDate.ymd, PyTime.hm, bne_iff_ne]

/-- C6 witness: the only-`Mara` form (non-empty first name) yields the
one-key payload. -/
theorem spec_C6_witness :
    ("Mara" : String) ≠ ""
    ∧ ("first_name", JVal.str "Mara")
        ∈ save_user_payload { first_name := "Mara" }
    ∧ save_user_payload { first_name := "Mara" }
        = [("first_name", JVal.str "Mara")] :=
  ⟨by decide, (spec_C6 { first_name := "Mara" } (by decide)).1,
   (spec_C6 { first_name := "Mara" } (by decide)).2.2.2.2.2.2.2.2.2.2⟩

/-- Whatever the transport does, a `GET` dispatch issues exactly the one
call described by its arguments. -/
theorem make_request_calls_get (net : Net) (b u : String) (kw : Kwargs) :
    (make_request net b "GET" u kw).calls = [⟨.get, u, kw⟩] := by
  unfold make_request
  rw [show parseVerb "GET" = some .get from rfl]
  rcases hn : net .get u kw <;> simp [hn]

/-- Whatever the transport does, a `POST` dispatch issues exactly the one
call described by its arguments. -/
theorem make_request_calls_post (net : Net) (b u : String) (kw : Kwargs) :
    (make_request net b "POST" u kw).calls = [⟨.post, u, kw⟩] := by
  unfold make_request
  rw [show parseVerb "POST" = some .post from rfl]
  rcases hn : net .post u kw <;> simp [hn]

/-- C8: each UI action issues exactly one HTTP request, with the method,
path, query, auth header and timeout of the external-interface table,
whatever the transport answers. -/
theorem spec_C8 (net : Net) (base_url token_input : String)
    (user_id year : Nat) (f : UserForm) (hf : f.first_name ≠ "") :
    (viewAllUsersAction net base_url token_input).calls
      = [⟨.get, base_url ++ "/users",
          ⟨get_headers token_input, none, some 10⟩⟩]
    ∧ (getUserByIdAction net base_url token_input user_id).calls
      = [⟨.get, base_url ++ "/users/" ++ toString user_id,
          ⟨get_headers token_input, none, some 10⟩⟩]
    ∧ (saveUserAction net base_url token_input f).calls
      = [⟨.post, base_url ++ "/users",
          ⟨get_headers token_input true, some (save_user_payload f),
           some 10⟩⟩]
    ∧ (getPlacementsAction net base_url token_input user_id).calls
      = [⟨.get, base_url ++ "/users/" ++ toString user_id ++ "/placements",
          ⟨get_headers token_input, none, some 30⟩⟩]
    ∧ (getBigThreeAction net base_url token_input user_id).calls
      = [⟨.get, base_url ++ "/users/" ++ toString user_id ++ "/big-three",
          ⟨get_headers token_input, none, some 30⟩⟩]
    ∧ (generateBookletAction net base_url token_input user_id).calls
      = [⟨.get, base_url ++ "/users/" ++ toString user_id ++ "/booklet",
          ⟨get_headers token_input, none, some 120⟩⟩]
    ∧ (generateCalendarAction net base_url token_input user_id year).calls
      = [⟨.get, base_url ++ "/users/" ++ toString user_id ++ "/calendar?year="
          ++ toString year, ⟨get_headers token_input, none, some 120⟩⟩]
    ∧ (healthCheckAction net base_url token_input).calls
      = [⟨.get, base_url ++ "/health",
          ⟨get_headers token_input, none, some 5⟩⟩] := by
  refine ⟨make_request_calls_get _ _ _ _, make_request_calls_get _ _ _ _, ?_,
    make_request_calls_get _ _ _ _, make_request_calls_get _ _ _ _,
    make_request_calls_get _ _ _ _, make_request_calls_get _ _ _ _,
    make_request_calls_get _ _ _ _⟩
  show (saveUserAction net base_url token_input f).calls = _
  unfold saveUserAction
  rw [if_neg hf]
  exact make_request_calls_post _ _ _ _

/-- C8 witness: at base URL `http://b`, token `t`, user 7, year 2026 and the
only-`Mara` form, the single request of several actions, on a 200-answering
network. -/
theorem spec_C8_witness :
    (viewAllUsersAction (fun _ _ _ => .ok ⟨200, some .null, ""⟩) "http://b"
        "t").calls
      = [⟨.get, "http://b/users", ⟨get_headers "t", none, some 10⟩⟩]
    ∧ (generateCalendarAction (fun _ _ _ => .ok ⟨200, some .null, ""⟩)
        "http://b" "t" 7 2026).calls
      = [⟨.get, "http://b/users/7/calendar?year=2026",
          ⟨get_headers "t", none, some 120⟩⟩]
    ∧ (saveUserAction (fun _ _ _ => .ok ⟨200, some .null, ""⟩) "http://b" "t"
        { first_name := "Mara" }).calls
      = [⟨.post, "http://b/users",
          ⟨get_headers "t" true,
           some (save_user_payload { first_name := "Mara" }), some 10⟩⟩] :=
  ⟨(spec_C8 (fun _ _ _ => .ok ⟨200, some .null, ""⟩) "http://b" "t" 7 2026
      { first_name := "Mara" } (by decide)).1,
   (spec_C8 (fun _ _ _ => .ok ⟨200, some .null, ""⟩) "http://b" "t" 7 2026
      { first_name := "Mara" } (by decide)).2.2.2.2.2.2.1,
   (spec_C8 (fun _ _ _ => .ok ⟨200, some .null, ""⟩) "http://b" "t" 7 2026
      { first_name := "Mara" } (by decide)).2.2.1⟩

/-- `show_response` without a success message never emits a success
banner. -/
theorem success_not_mem_show_response (r : Resp) (s : String) :
    UIEvent.success s ∉ (show_response r none).1 := by
  unfold show_response
  by_cases h : r.status_code < 400
  · rcases hj : r.jsonResult with _ | d <;> simp [h, hj]
  · rcases hj : r.jsonResult with _ | d
    · simp [h, hj]
    · rcases d <;> simp [h, hj]

/-- Events of the booklet action when the transport delivers `r`. -/
theorem bookletEvents (r : Resp) (b t : String) (uid : Nat) :
    (generateBookletAction (fun _ _ _ => .ok r) b t uid).events
      = if r.ok && (r.status_code == 200) then
          [UIEvent.success "✅ Booklet generated successfully!",
           UIEvent.info "The PDF has been saved to your Downloads folder."]
        else if r.ok then (show_response r).1 else [] := rfl

/-- Events of the calendar action when the transport delivers `r`. -/
theorem calendarEvents (r : Resp) (b t : String) (uid y : Nat) :
    (generateCalendarAction (fun _ _ _ => .ok r) b t uid y).events
      = if r.ok && (r.status_code == 200) then
          [UIEvent.success "✅ Calendar generated successfully!",
           UIEvent.info "The PDF has been saved to your Downloads folder."]
        else if r.ok then (show_response r).1 else [] := rfl

/-- Events of the health check when the transport delivers `r`. -/
theorem healthEvents (r : Resp) (b t : String) :
    (healthCheckAction (fun _ _ _ => .ok r) b t).events
      = if r.ok then
          if r.status_code == 200 then
            UIEvent.success "✅ Backend is healthy!" ::
            (match r.jsonResult with
             | some j => [UIEvent.jsonOut j]
             | none => [])
          else [UIEvent.errorOut "❌ Backend health check failed"]
        else [] := rfl

/-- A status below 400 makes the response truthy. -/
theorem resp_ok_of_lt (r : Resp) (h : r.status_code < 400) : r.ok = true := by
  unfold Resp.ok
  simp only [Bool.not_eq_true', Bool.and_eq_false_iff]
  left
  simpa using by omega

/-- C9: for the booklet, calendar and health-check actions the success
banner appears exactly when the transport delivered a response with status
exactly 200; a delivered status below 400 other than 200 makes the health
check report failure and makes booklet/calendar fall through to the generic
response renderer. -/
theorem spec_C9 (tr : TransportResult) (base_url token_input : String)
    (user_id year : Nat) :
    ((∃ s, UIEvent.success s ∈ (generateBookletAction (fun _ _ _ => tr)
        base_url token_input user_id).events)
      ↔ (∃ r, tr = .ok r ∧ r.status_code = 200))
    ∧ ((∃ s, UIEvent.success s ∈ (generateCalendarAction (fun _ _ _ => tr)
        base_url token_input user_id year).events)
      ↔ (∃ r, tr = .ok r ∧ r.status_code = 200))
    ∧ ((∃ s, UIEvent.success s ∈ (healthCheckAction (fun _ _ _ => tr)
        base_url token_input).events)
      ↔ (∃ r, tr = .ok r ∧ r.status_code = 200))
    ∧ (∀ r, tr = .ok r → r.status_code < 400 → r.status_code ≠ 200 →
        (generateBookletAction (fun _ _ _ => tr) base_url token_input
            user_id).events = (show_response r).1
        ∧ (generateCalendarAction (fun _ _ _ => tr) base_url token_input
            user_id year).events = (show_response r).1
        ∧ (healthCheckAction (fun _ _ _ => tr) base_url token_input).events
            = [UIEvent.errorOut "❌ Backend health check failed"]) := by
  rcases tr with r | _ | _ | e
  · by_cases h200 : r.status_code = 200
    · have hok : r.ok = true := resp_ok_of_lt r (by omega)
      refine ⟨?_, ?_, ?_, ?_⟩
      · simp [bookletEvents, hok, h200]
      · simp [calendarEvents, hok, h200]
      · simp [healthEvents, hok, h200]
      · intro r2 hr2 _ hne
        injection hr2 with hr2
        exact absurd (hr2 ▸ h200) hne
    · refine ⟨?_, ?_, ?_, ?_⟩
      · rcases hok : r.ok <;>
          simp [bookletEvents, hok, h200, success_not_mem_show_response]
      · rcases hok : r.ok <;>
          simp [calendarEvents, hok, h200, success_not_mem_show_response]
      · rcases hok : r.ok <;> simp [healthEvents, hok, h200]
      · intro r2 hr2 h400 hne
        injection hr2 with hr2
        subst hr2
        have hok : r.ok = true := resp_ok_of_lt r h400
        refine ⟨?_, ?_, ?_⟩
        · simp [bookletEvents, hok, h200]
        · simp [calendarEvents, hok, h200]
        · simp [healthEvents, hok, h200]
  · exact ⟨by simp [generateBookletAction, make_request,
        show parseVerb "GET" = some Verb.get from rfl],
      by simp [generateCalendarAction, make_request,
        show parseVerb "GET" = some Verb.get from rfl],
      by simp [healthCheckAction, make_request,
        show parseVerb "GET" = some Verb.get from rfl],
      fun r hr => by simp at hr⟩
  · exact ⟨by simp [generateBookletAction, make_request,
        show parseVerb "GET" = some Verb.get from rfl],
      by simp [generateCalendarAction, make_request,
        show parseVerb "GET" = some Verb.get from rfl],
      by simp [healthCheckAction, make_request,
        show parseVerb "GET" = some Verb.get from rfl],
      fun r hr => by simp at hr⟩
  · exact ⟨by simp [generateBookletAction, make_request,
        show parseVerb "GET" = some Verb.get from rfl],
      by simp [generateCalendarAction, make_request,
        show parseVerb "GET" = some Verb.get from rfl],
      by simp [healthCheckAction, make_request,
        show parseVerb "GET" = some Verb.get from rfl],
      fun r hr => by simp at hr⟩

/-- C9 witness: a delivered 204 (truthy, not 200) booklet response falls
through to the generic renderer, and the health check reports failure. -/
theorem spec_C9_witness :
    (generateBookletAction (fun _ _ _ => .ok ⟨204, some .null, ""⟩) "b" "t"
        1).events = [UIEvent.jsonOut JVal.null]
    ∧ (healthCheckAction (fun _ _ _ => .ok ⟨204, some .null, ""⟩) "b"
        "t").events = [UIEvent.errorOut "❌ Backend health check failed"] :=
  ⟨((spec_C9 (.ok ⟨204, some .null, ""⟩) "b" "t" 1 2026).2.2.2
      ⟨204, some .null, ""⟩ rfl (by norm_num) (by norm_num)).1,
   ((spec_C9 (.ok ⟨204, some .null, ""⟩) "b" "t" 1 2026).2.2.2
      ⟨204, some .null, ""⟩ rfl (by norm_num) (by norm_num)).2.2⟩

end AstroApp
